import Mathlib

/-!
# Verification of the portfolio page script

A shallow embedding of `script.js`, the client-side behavior script of a
static portfolio page, together with proofs about its components:

* the gallery modal state machine (`initGalleryModal`): manifest load,
  open / render / navigate / close transitions and keyboard dispatch;
* the category filter controller (`initFilters`);
* the contact form submission handler (`initContactFormSubmission`);
* the certificate modal download control (`initCertificateModal`).

JavaScript strings are modelled as Lean `String`; an attribute or object
field that may be absent is an `Option String`, and JavaScript truthiness
on strings ("" is falsy) is made explicit in the helpers below.
-/

namespace PortfolioScript

/-- JS `a || b` for a possibly-absent string `a`: an absent value and the
empty string are both falsy, so either falls through to `b`. -/
def jsOrStr (a : Option String) (b : String) : String :=
  match a with
  | some s => if s = "" then b else s
  | none => b

/-- JS truthiness of a possibly-absent string: present and non-empty. -/
def jsTruthy (a : Option String) : Bool :=
  match a with
  | some s => s ≠ ""
  | none => false

/-- JS `x || null`-style normalization used for display of an optional
caption: a falsy caption (absent or empty) renders nothing. -/
def jsTruthyOpt (a : Option String) : Option String :=
  match a with
  | some s => if s = "" then none else some s
  | none => none

/-! ## Gallery data model

`gallery.json` is a mapping from category name to an ordered sequence of
gallery items (`{ type, src, alt?, caption? }`), modelled as an
association list. `allGalleries[category] || []` yields `[]` for an
absent key. -/

structure GalleryItem where
  type : String
  src : String
  alt : Option String := none
  caption : Option String := none
deriving Repr, DecidableEq, Inhabited

abbrev Manifest := List (String × List GalleryItem)

/-- `allGalleries[category] || []`: the category's sequence, or `[]` when
the key is absent (JS property access yields `undefined`, falsy). -/
def lookupManifest (m : Manifest) (category : String) : List GalleryItem :=
  match m.find? (fun p => p.1 = category) with
  | some p => p.2
  | none => []

/-- The media element built by `showGalleryItem` for one item. -/
inductive MediaEl where
  | img (src : String) (alt : String)
  | video (src : String)
  | docLink (href : String) (label : String)
  | unsupported
deriving Repr, DecidableEq

/-- The type dispatch of `showGalleryItem`:
image → `<img>` (alt falls back to `category + " image"`),
video → `<video controls>`,
application/pdf → an `<a target="_blank">` labeled by the caption or
"View Document", anything else → an "Unsupported media type" placeholder. -/
def renderMedia (category : String) (item : GalleryItem) : MediaEl :=
  if item.type = "image" then
    .img item.src (jsOrStr item.alt (category ++ " image"))
  else if item.type = "video" then
    .video item.src
  else if item.type = "application" ∨ item.type = "pdf" then
    .docLink item.src (jsOrStr item.caption "View Document")
  else
    .unsupported

/-- Contents of the `#gallery-items` container: cleared, an inline
message `<div>`, or exactly one wrapper holding one media node and an
optional caption paragraph. -/
inductive GalleryContent where
  | empty
  | message (text : String)
  | itemView (media : MediaEl) (caption : Option String)
deriving Repr, DecidableEq

/-- The inline message rendered when a category has no items. -/
def noItemsMessage (category : String) : String :=
  "No gallery items found for \"" ++ category ++ "\""

/-- State owned by `initGalleryModal`: the loaded manifest, the session
variables `currentGallery` / `currentIndex` / `currentCategory`, the
modal's visibility (`style.display === "flex"`), the page scroll lock
(`body.style.overflow === "hidden"`), and the rendered container. -/
structure GalleryState where
  allGalleries : Manifest
  currentGallery : List GalleryItem
  currentIndex : Nat
  currentCategory : String
  visible : Bool
  bodyScrollLocked : Bool
  content : GalleryContent
deriving Repr, DecidableEq

/-- The state on page load: no manifest yet, empty session, modal hidden. -/
def initialGalleryState : GalleryState :=
  { allGalleries := []
    currentGallery := []
    currentIndex := 0
    currentCategory := ""
    visible := false
    bodyScrollLocked := false
    content := .empty }

/-- `showGalleryItem`: clears the container; if the current gallery is
empty, stops there; otherwise renders the item at `currentIndex` with its
optional caption. -/
def showGalleryItem (s : GalleryState) : GalleryState :=
  if s.currentGallery.isEmpty then
    { s with content := .empty }
  else
    let item := s.currentGallery.getD s.currentIndex default
    { s with content := .itemView (renderMedia s.currentCategory item) (jsTruthyOpt item.caption) }

/-- The card-click handler: sets `currentCategory` and resolves
`currentGallery` from the manifest; if empty, renders the "no items"
message and opens the modal shell (leaving `currentIndex` untouched);
otherwise sets `currentIndex := 0`, renders the first item, and opens
the modal. -/
def openGallery (category : String) (s : GalleryState) : GalleryState :=
  let g := lookupManifest s.allGalleries category
  let s1 : GalleryState := { s with currentCategory := category, currentGallery := g }
  if g.isEmpty then
    { s1 with content := .message (noItemsMessage category), visible := true, bodyScrollLocked := true }
  else
    let s2 := showGalleryItem { s1 with currentIndex := 0 }
    { s2 with visible := true, bodyScrollLocked := true }

/-- `closeGallery`: hides the modal, restores page scroll, clears the
container and resets all three session variables. -/
def closeGallery (s : GalleryState) : GalleryState :=
  { s with visible := false
           bodyScrollLocked := false
           content := .empty
           currentGallery := []
           currentIndex := 0
           currentCategory := "" }

/-- Effect emitted by `closeGallery` on the rendered video, if any. -/
inductive GalleryEffect where
  | pauseVideo
deriving Repr, DecidableEq

/-- Whether the container currently holds a `<video>` element
(`galleryItemsContainer.querySelector("video")` is non-null). -/
def contentHasVideo : GalleryContent → Bool
  | .itemView (.video _) _ => true
  | _ => false

/-- `closeGallery` with its effects: attempts `video.pause()` when a
video is rendered; the `pauseThrows` flag says whether that call throws,
and the surrounding `try { } catch (_) {}` swallows the failure, so the
resulting state does not depend on it. -/
def closeGalleryRun (pauseThrows : Bool) (s : GalleryState) :
    GalleryState × List GalleryEffect :=
  let effects := if contentHasVideo s.content then [GalleryEffect.pauseVideo] else []
  (closeGallery s, effects)

/-- The `gallery-prev` click handler: no-op on an empty gallery, else
`currentIndex = (currentIndex - 1 + length) % length` and re-render. -/
def galleryPrev (s : GalleryState) : GalleryState :=
  if s.currentGallery.isEmpty then s
  else
    showGalleryItem
      { s with currentIndex :=
          (s.currentIndex + s.currentGallery.length - 1) % s.currentGallery.length }

/-- The `gallery-next` click handler: no-op on an empty gallery, else
`currentIndex = (currentIndex + 1) % length` and re-render. -/
def galleryNext (s : GalleryState) : GalleryState :=
  if s.currentGallery.isEmpty then s
  else
    showGalleryItem
      { s with currentIndex := (s.currentIndex + 1) % s.currentGallery.length }

/-- The global `keydown` listener: gated on
`galleryModal.style.display === "flex"`; Escape closes, ArrowRight
clicks next, ArrowLeft clicks prev; anything else (or a hidden modal)
leaves the state unchanged. -/
def galleryKeydown (key : String) (s : GalleryState) : GalleryState :=
  if s.visible then
    if key = "Escape" then closeGallery s
    else if key = "ArrowRight" then galleryNext s
    else if key = "ArrowLeft" then galleryPrev s
    else s
  else s

/-- One observable transition of the gallery component. -/
inductive GalleryStep where
  | openCard (category : String)
  | prevClick
  | nextClick
  | closeClick
  | backdropClick
  | keydown (key : String)
deriving Repr

/-- Dispatch of a transition to its handler; the close control and a
backdrop click both run `closeGallery`. -/
def stepGallery : GalleryStep → GalleryState → GalleryState
  | .openCard c, s => openGallery c s
  | .prevClick, s => galleryPrev s
  | .nextClick, s => galleryNext s
  | .closeClick, s => closeGallery s
  | .backdropClick, s => closeGallery s
  | .keydown k, s => galleryKeydown k s

/-- The session-state invariant: when the resolved sequence is
non-empty, `currentIndex` is a valid position in it. -/
def galleryInv (s : GalleryState) : Prop :=
  s.currentGallery ≠ [] → s.currentIndex < s.currentGallery.length

instance (s : GalleryState) : Decidable (galleryInv s) := by
  unfold galleryInv; infer_instance

/-! ## Manifest load -/

/-- A console/log event emitted by a handler; `alertMsg` is a blocking
user-facing notification, `consoleError` a developer log line. -/
inductive UiEvent where
  | alertMsg (text : String)
  | consoleError (text : String)
deriving Repr, DecidableEq

/-- The manifest fetch continuation: on success stores `data || {}`; on
failure (network error or invalid JSON) logs to the console and stores
an empty mapping. No retry is issued and no alert is raised. -/
def onManifestResult (r : Except String Manifest) : Manifest × List UiEvent :=
  match r with
  | .ok data => (data, [])
  | .error err => ([], [UiEvent.consoleError ("Failed to load gallery.json " ++ err)])

/-! ## Filter controller (`initFilters`)

Each item carries up to three data attributes; the click handler
computes `item.dataset.category || item.dataset.project ||
item.dataset.gallery || ""` and shows the item iff the filter is "all"
or the computed tag equals the filter value. -/

structure FilterItem where
  category : Option String := none
  project : Option String := none
  gallery : Option String := none
  visible : Bool := true
  fadeIn : Bool := false
deriving Repr, DecidableEq

/-- The tag the handler compares against: the JS `||` chain over the
three data attributes, so a present-but-empty attribute falls through
exactly like an absent one. -/
def catTag (it : FilterItem) : String :=
  jsOrStr it.category (jsOrStr it.project (jsOrStr it.gallery ""))

/-- The per-item body of the filter click handler: show (display
restored, fade-in class added) when the filter is "all" or matches the
tag, else hide (display none, fade-in class removed). -/
def applyFilter (filter : String) (it : FilterItem) : FilterItem :=
  if filter = "all" ∨ catTag it = filter then
    { it with visible := true, fadeIn := true }
  else
    { it with visible := false, fadeIn := false }

/-- A filter button click maps `applyFilter` over every item of the
associated collection. -/
def filterClick (filter : String) (items : List FilterItem) : List FilterItem :=
  items.map (applyFilter filter)

/-- The tag as the claim words it: the first *present* of the three
data attributes (empty string counts as present), defaulting to "".
Stated from the claim for comparison with `catTag`. -/
def firstPresentTag (it : FilterItem) : String :=
  ((it.category.or it.project).or it.gallery).getD ""

/-! ## Contact form submission (`initContactFormSubmission`) -/

/-- The outcome of `fetch` as seen by the submit handler: a network
error (the `catch` branch), or a response with an `ok` flag and a body
whose `res.json()` either fails to parse (`Except.error`) or yields a
value with an optional string `message` field (`none` models both an
absent field and a JSON value such as `null` with no fields, all falsy
under `json && json.message`). -/
inductive SubmitResponse where
  | networkError
  | response (ok : Bool) (body : Except Unit (Option String))
deriving Repr

def successAlertText : String := "Your message has been sent successfully!"

def genericErrorText : String := "Error sending message. Please try again later."

def networkErrorText : String := "An error occurred while sending your message. Please try again."

/-- What the submit handler leaves behind: the alerts raised, whether
`form.reset()` ran, and whether the `loading` class remains (the
`finally` block always removes it). -/
structure SubmitOutcome where
  alerts : List String
  formReset : Bool
  loadingAfter : Bool
deriving Repr, DecidableEq

/-- The submit handler after the fetch settles: `res.ok` → success alert
and reset; otherwise the alert text is the parsed `message` field when
it is truthy, else the generic text; a thrown fetch → the network-error
alert. The loading class is removed in every branch. -/
def handleSubmitResponse (r : SubmitResponse) : SubmitOutcome :=
  match r with
  | .networkError => ⟨[networkErrorText], false, false⟩
  | .response true _ => ⟨[successAlertText], true, false⟩
  | .response false body =>
    let msg :=
      match body with
      | .ok (some m) => if m = "" then genericErrorText else m
      | _ => genericErrorText
    ⟨[msg], false, false⟩

/-! ## Certificate modal (`initCertificateModal`) -/

/-- JS `\s` for the strings at play: ASCII whitespace. -/
def isWsChar (c : Char) : Bool :=
  c = ' ' ∨ c = '\t' ∨ c = '\n' ∨ c = '\r' ∨ c = '\x0b' ∨ c = '\x0c'

/-- `.replace(/\s+/g, "_")`: each maximal run of whitespace becomes one
underscore. `inRun` records whether the previous character belonged to a
run already replaced. -/
def collapseWs (inRun : Bool) : List Char → List Char
  | [] => []
  | c :: rest =>
    if isWsChar c then
      if inRun then collapseWs true rest
      else '_' :: collapseWs true rest
    else c :: collapseWs false rest

/-- JS `\w`: ASCII letter, digit or underscore. -/
def isWordChar (c : Char) : Bool :=
  c.isAlpha ∨ c.isDigit ∨ c = '_'

/-- The character class kept by `.replace(/[^\w\-_.]/g, "")`: word
characters, hyphen and dot. -/
def keptChar (c : Char) : Bool :=
  isWordChar c ∨ c = '-' ∨ c = '.'

/-- `(title || "certificate").replace(/\s+/g, "_").replace(/[^\w\-_.]/g, "")`. -/
def safeTitle (title : String) : String :=
  let base := if title = "" then "certificate" else title
  String.mk ((collapseWs false base.toList).filter keptChar)

/-- The `link.download` filename synthesized by the download control. -/
def downloadFilename (title : String) : String :=
  safeTitle title ++ ".jpg"

/-- The filename as the claim words it: collapse whitespace to
underscores, strip all non-word characters, append ".jpg". Stated from
the claim for comparison with `downloadFilename`. -/
def claimedFilename (title : String) : String :=
  String.mk ((collapseWs false title.toList).filter isWordChar) ++ ".jpg"

/-- Session state of the certificate modal: the captured image URL and
title (both cleared on close), and the modal visibility. -/
structure CertState where
  url : String
  title : String
  visible : Bool
deriving Repr, DecidableEq

/-- Certificate state on page load: nothing captured yet. -/
def initialCertState : CertState :=
  { url := "", title := "", visible := false }

/-- Thumbnail click: captures the image source and the nearest card
heading's trimmed text (or "Certificate" when the heading is absent) and
shows the modal. -/
def openCertificate (imgSrc : String) (headingText : Option String) (s : CertState) : CertState :=
  { s with url := imgSrc
           title := headingText.getD "Certificate"
           visible := true }

/-- `closeCertificateModal` after its fade-out timeout: hides the modal
and clears the captured URL and title. -/
def closeCertificateModal (s : CertState) : CertState :=
  { s with visible := false, url := "", title := "" }

/-- The download action materialized by the synthesized anchor. -/
inductive CertEffect where
  | download (href : String) (filename : String)
deriving Repr, DecidableEq

/-- The `download-certificate` click handler: guarded on a truthy
captured URL; inside the guard it creates an anchor, clicks it and
removes it, changing no session state; outside it does nothing at
all. -/
def downloadClick (s : CertState) : CertState × List CertEffect :=
  if s.url ≠ "" then
    (s, [CertEffect.download s.url (downloadFilename s.title)])
  else
    (s, [])

/-! ## Sample data for concrete witnesses -/

def sampleItems : List GalleryItem :=
  [{ type := "image", src := "a.jpg" },
   { type := "video", src := "b.mp4" },
   { type := "pdf", src := "c.pdf", caption := some "Doc" }]

def sampleManifest : Manifest := [("travel", sampleItems)]

/-- The state reached by loading `sampleManifest` and opening "travel". -/
def sampleState : GalleryState :=
  openGallery "travel" { initialGalleryState with allGalleries := sampleManifest }

/-! ## Helper lemmas on the gallery transitions -/

theorem showGalleryItem_currentGallery (s : GalleryState) :
    (showGalleryItem s).currentGallery = s.currentGallery := by
  unfold showGalleryItem; split <;> rfl

theorem showGalleryItem_currentIndex (s : GalleryState) :
    (showGalleryItem s).currentIndex = s.currentIndex := by
  unfold showGalleryItem; split <;> rfl

theorem galleryNext_currentGallery (s : GalleryState) :
    (galleryNext s).currentGallery = s.currentGallery := by
  unfold galleryNext
  split
  · rfl
  · rw [showGalleryItem_currentGallery]

theorem galleryPrev_currentGallery (s : GalleryState) :
    (galleryPrev s).currentGallery = s.currentGallery := by
  unfold galleryPrev
  split
  · rfl
  · rw [showGalleryItem_currentGallery]

theorem galleryNext_currentIndex (s : GalleryState) (h : s.currentGallery ≠ []) :
    (galleryNext s).currentIndex = (s.currentIndex + 1) % s.currentGallery.length := by
  unfold galleryNext
  rw [if_neg (by simpa [List.isEmpty_iff] using h), showGalleryItem_currentIndex]

theorem galleryPrev_currentIndex (s : GalleryState) (h : s.currentGallery ≠ []) :
    (galleryPrev s).currentIndex =
      (s.currentIndex + s.currentGallery.length - 1) % s.currentGallery.length := by
  unfold galleryPrev
  rw [if_neg (by simpa [List.isEmpty_iff] using h), showGalleryItem_currentIndex]

theorem galleryNext_iterate (s : GalleryState) (h : s.currentGallery ≠ [])
    (hidx : s.currentIndex < s.currentGallery.length) (k : Nat) :
    (galleryNext^[k] s).currentGallery = s.currentGallery ∧
    (galleryNext^[k] s).currentIndex = (s.currentIndex + k) % s.currentGallery.length := by
  induction k with
  | zero => simpa using (Nat.mod_eq_of_lt hidx).symm
  | succ k ih =>
    obtain ⟨hg, hi⟩ := ih
    rw [Function.iterate_succ_apply']
    refine ⟨by rw [galleryNext_currentGallery, hg], ?_⟩
    rw [galleryNext_currentIndex _ (by rw [hg]; exact h), hg, hi, Nat.mod_add_mod,
      Nat.add_assoc]

/-- C1: Gallery navigation is cyclic: from any in-bounds index, `next`
applied `length` times returns to the original index; `prev` from index
0 lands on `length − 1`; and both handlers compute the new index modulo
the sequence length. -/
theorem gallery_navigation_cyclic (s : GalleryState)
    (h : s.currentGallery ≠ []) (hidx : s.currentIndex < s.currentGallery.length) :
    (galleryNext^[s.currentGallery.length] s).currentIndex = s.currentIndex ∧
    (galleryPrev { s with currentIndex := 0 }).currentIndex = s.currentGallery.length - 1 ∧
    (galleryNext s).currentIndex = (s.currentIndex + 1) % s.currentGallery.length ∧
    (galleryPrev s).currentIndex =
      (s.currentIndex + s.currentGallery.length - 1) % s.currentGallery.length := by
  have hlen : 0 < s.currentGallery.length := List.length_pos.mpr h
  refine ⟨?_, ?_, galleryNext_currentIndex s h, galleryPrev_currentIndex s h⟩
  · rw [(galleryNext_iterate s h hidx s.currentGallery.length).2, Nat.add_mod_right,
      Nat.mod_eq_of_lt hidx]
  · rw [galleryPrev_currentIndex { s with currentIndex := 0 } h]
    show (0 + s.currentGallery.length - 1) % s.currentGallery.length =
      s.currentGallery.length - 1
    have he : 0 + s.currentGallery.length - 1 = s.currentGallery.length - 1 := by omega
    rw [he]
    exact Nat.mod_eq_of_lt (by omega)

/-- Witness for C1 at the concrete sample state (three items, index 0). -/
theorem gallery_navigation_cyclic_witness :
    (galleryNext^[sampleState.currentGallery.length] sampleState).currentIndex =
      sampleState.currentIndex ∧
    (galleryPrev { sampleState with currentIndex := 0 }).currentIndex =
      sampleState.currentGallery.length - 1 ∧
    (galleryNext sampleState).currentIndex =
      (sampleState.currentIndex + 1) % sampleState.currentGallery.length ∧
    (galleryPrev sampleState).currentIndex =
      (sampleState.currentIndex + sampleState.currentGallery.length - 1) %
        sampleState.currentGallery.length :=
  gallery_navigation_cyclic sampleState (by decide) (by decide)

theorem openGallery_empty_case (c : String) (s : GalleryState)
    (h : lookupManifest s.allGalleries c = []) :
    openGallery c s =
      { s with currentCategory := c
               currentGallery := []
               content := .message (noItemsMessage c)
               visible := true
               bodyScrollLocked := true } := by
  unfold openGallery
  rw [h]
  rfl

theorem openGallery_nonempty_case (c : String) (s : GalleryState)
    (h : lookupManifest s.allGalleries c ≠ []) :
    openGallery c s =
      { s with currentCategory := c
               currentGallery := lookupManifest s.allGalleries c
               currentIndex := 0
               content := .itemView
                 (renderMedia c ((lookupManifest s.allGalleries c).getD 0 default))
                 (jsTruthyOpt ((lookupManifest s.allGalleries c).getD 0 default).caption)
               visible := true
               bodyScrollLocked := true } := by
  unfold openGallery showGalleryItem
  rw [if_neg (by simpa [List.isEmpty_iff] using h),
    if_neg (by simpa [List.isEmpty_iff] using h)]

theorem galleryInv_closeGallery (s : GalleryState) : galleryInv (closeGallery s) := by
  intro hne
  exact absurd rfl hne

theorem galleryInv_openGallery (c : String) (s : GalleryState) :
    galleryInv (openGallery c s) := by
  by_cases h : lookupManifest s.allGalleries c = []
  · rw [openGallery_empty_case c s h]
    intro hne
    exact absurd rfl hne
  · rw [openGallery_nonempty_case c s h]
    intro hne
    show 0 < (lookupManifest s.allGalleries c).length
    exact List.length_pos.mpr h

theorem galleryInv_galleryNext (s : GalleryState) (h : galleryInv s) :
    galleryInv (galleryNext s) := by
  by_cases hg : s.currentGallery = []
  · unfold galleryNext
    rw [if_pos (by simpa [List.isEmpty_iff] using hg)]
    exact h
  · intro _
    rw [galleryNext_currentGallery, galleryNext_currentIndex s hg]
    exact Nat.mod_lt _ (List.length_pos.mpr hg)

theorem galleryInv_galleryPrev (s : GalleryState) (h : galleryInv s) :
    galleryInv (galleryPrev s) := by
  by_cases hg : s.currentGallery = []
  · unfold galleryPrev
    rw [if_pos (by simpa [List.isEmpty_iff] using hg)]
    exact h
  · intro _
    rw [galleryPrev_currentGallery, galleryPrev_currentIndex s hg]
    exact Nat.mod_lt _ (List.length_pos.mpr hg)

/-- C2: The session-state invariant (index in bounds whenever the
resolved sequence is non-empty) is preserved by every transition of the
gallery state machine: card-click open, prev/next clicks, the close
control, a backdrop click, and any key press. -/
theorem gallery_invariant_preserved (a : GalleryStep) (s : GalleryState)
    (h : galleryInv s) : galleryInv (stepGallery a s) := by
  cases a with
  | openCard c => exact galleryInv_openGallery c s
  | prevClick => exact galleryInv_galleryPrev s h
  | nextClick => exact galleryInv_galleryNext s h
  | closeClick => exact galleryInv_closeGallery s
  | backdropClick => exact galleryInv_closeGallery s
  | keydown k =>
    show galleryInv (galleryKeydown k s)
    unfold galleryKeydown
    split
    · split
      · exact galleryInv_closeGallery s
      · split
        · exact galleryInv_galleryNext s h
        · split
          · exact galleryInv_galleryPrev s h
          · exact h
    · exact h

/-- Witness for C2: one concrete transition (next from the sample open
state) preserves the invariant. -/
theorem gallery_invariant_preserved_witness :
    galleryInv (stepGallery .nextClick sampleState) :=
  gallery_invariant_preserved .nextClick sampleState (by decide)

/-- C3: Opening a gallery: a category with a non-empty sequence gets
index 0 and exactly one rendered media node (the wrapper for the first
item); an absent category, an empty sequence, or a not-yet-loaded
manifest (the initial empty mapping, under which every lookup is empty)
gets the inline "No gallery items found" message; the modal shell opens
in both cases, and `openGallery` is a total function, so no exception is
thrown. -/
theorem gallery_open_postcondition (c : String) (s : GalleryState) :
    (lookupManifest s.allGalleries c ≠ [] →
       (openGallery c s).currentIndex = 0 ∧
       (openGallery c s).content =
         .itemView (renderMedia c ((lookupManifest s.allGalleries c).getD 0 default))
           (jsTruthyOpt ((lookupManifest s.allGalleries c).getD 0 default).caption)) ∧
    (lookupManifest s.allGalleries c = [] →
       (openGallery c s).content = .message (noItemsMessage c)) ∧
    (openGallery c s).visible = true ∧
    lookupManifest ([] : Manifest) c = [] := by
  refine ⟨fun h => ?_, fun h => ?_, ?_, rfl⟩
  · rw [openGallery_nonempty_case c s h]
    exact ⟨rfl, rfl⟩
  · rw [openGallery_empty_case c s h]
  · by_cases h : lookupManifest s.allGalleries c = []
    · rw [openGallery_empty_case c s h]
    · rw [openGallery_nonempty_case c s h]

/-- Witness for C3: opening "travel" on the sample manifest renders the
first item at index 0; opening "missing" on the initial (unloaded)
state renders the message. -/
theorem gallery_open_postcondition_witness :
    (openGallery "travel" { initialGalleryState with allGalleries := sampleManifest }).currentIndex
      = 0 ∧
    (openGallery "missing" initialGalleryState).content =
      .message (noItemsMessage "missing") :=
  ⟨((gallery_open_postcondition "travel"
      { initialGalleryState with allGalleries := sampleManifest }).1 (by decide)).1,
   (gallery_open_postcondition "missing" initialGalleryState).2.1 (by decide)⟩

/-- C4: Closing the gallery: the resulting state does not depend on
whether the video pause throws (the failure is swallowed); when a video
is rendered a pause is attempted; the modal is hidden, page scroll
restored, and all three session variables reset, so reopening any
non-empty category starts at index 0. -/
theorem gallery_close_spec (pauseThrows pauseThrows' : Bool) (s : GalleryState) :
    closeGalleryRun pauseThrows s = closeGalleryRun pauseThrows' s ∧
    (contentHasVideo s.content = true →
       GalleryEffect.pauseVideo ∈ (closeGalleryRun pauseThrows s).2) ∧
    (closeGalleryRun pauseThrows s).1.visible = false ∧
    (closeGalleryRun pauseThrows s).1.bodyScrollLocked = false ∧
    (closeGalleryRun pauseThrows s).1.currentGallery = [] ∧
    (closeGalleryRun pauseThrows s).1.currentIndex = 0 ∧
    (closeGalleryRun pauseThrows s).1.currentCategory = "" ∧
    (closeGalleryRun pauseThrows s).1.content = .empty ∧
    (∀ c, lookupManifest s.allGalleries c ≠ [] →
       (openGallery c (closeGalleryRun pauseThrows s).1).currentIndex = 0) := by
  refine ⟨rfl, fun h => ?_, rfl, rfl, rfl, rfl, rfl, rfl, fun c hc => ?_⟩
  · simp [closeGalleryRun, h]
  · have hc' : lookupManifest (closeGalleryRun pauseThrows s).1.allGalleries c ≠ [] := hc
    rw [openGallery_nonempty_case c (closeGalleryRun pauseThrows s).1 hc']

/-- Witness for C4 at a state showing the sample video item: a pause is
attempted and reopening lands on index 0. -/
theorem gallery_close_spec_witness :
    GalleryEffect.pauseVideo ∈ (closeGalleryRun true (galleryNext sampleState)).2 ∧
    (openGallery "travel" (closeGalleryRun true (galleryNext sampleState)).1).currentIndex
      = 0 :=
  ⟨(gallery_close_spec true false (galleryNext sampleState)).2.1 (by decide),
   (gallery_close_spec true false (galleryNext sampleState)).2.2.2.2.2.2.2.2 "travel"
     (by decide)⟩

/-- C8: A failed manifest fetch stores the empty mapping and emits a
console log but no alert; with the empty mapping every subsequent open
renders the "no items found" message (and still opens the shell). The
fetch continuation `onManifestResult` consumes the single fetch result
issued at initialization, so no retry exists to model. -/
theorem manifest_failure_degrades (err : String) :
    (onManifestResult (.error err)).1 = [] ∧
    (∃ msg, UiEvent.consoleError msg ∈ (onManifestResult (.error err)).2) ∧
    (∀ msg, UiEvent.alertMsg msg ∉ (onManifestResult (.error err)).2) ∧
    (∀ c s, s.allGalleries = (onManifestResult (.error err)).1 →
       (openGallery c s).content = .message (noItemsMessage c) ∧
       (openGallery c s).visible = true) := by
  refine ⟨rfl, ⟨"Failed to load gallery.json " ++ err, by simp [onManifestResult]⟩,
    fun msg hmem => ?_, fun c s hs => ?_⟩
  · simp [onManifestResult] at hmem
  · have hl : lookupManifest s.allGalleries c = [] := by rw [hs]; rfl
    rw [openGallery_empty_case c s hl]
    exact ⟨rfl, rfl⟩

/-- Witness for C8: after a failed fetch, opening "travel" shows the
message. -/
theorem manifest_failure_degrades_witness :
    (openGallery "travel"
      { initialGalleryState with
          allGalleries := (onManifestResult (.error "TypeError")).1 }).content =
      .message (noItemsMessage "travel") :=
  ((manifest_failure_degrades "TypeError").2.2.2 "travel"
    { initialGalleryState with
        allGalleries := (onManifestResult (.error "TypeError")).1 } rfl).1

/-- C9: Keyboard handling is gated on modal visibility: while visible,
ArrowRight/ArrowLeft/Escape run the next/prev/close handlers; while
hidden, every key press leaves the gallery state unchanged. -/
theorem keyboard_gated_on_visibility (s : GalleryState) :
    (s.visible = true →
       galleryKeydown "ArrowRight" s = galleryNext s ∧
       galleryKeydown "ArrowLeft" s = galleryPrev s ∧
       galleryKeydown "Escape" s = closeGallery s) ∧
    (s.visible = false → ∀ k, galleryKeydown k s = s) := by
  constructor
  · intro hv
    refine ⟨?_, ?_, ?_⟩ <;> simp [galleryKeydown, hv]
  · intro hv k
    simp [galleryKeydown, hv]

/-- Witness for C9: ArrowRight advances the visible sample state and
does nothing on the hidden initial state. -/
theorem keyboard_gated_on_visibility_witness :
    galleryKeydown "ArrowRight" sampleState = galleryNext sampleState ∧
    galleryKeydown "ArrowRight" initialGalleryState = initialGalleryState :=
  ⟨((keyboard_gated_on_visibility sampleState).1 (by decide)).1,
   (keyboard_gated_on_visibility initialGalleryState).2 (by decide) "ArrowRight"⟩

/-! ## Certificate filename sanitization (C5) -/

/-- The amended sanitization written as an independent single pass:
each maximal whitespace run becomes one underscore, and every other
character is kept iff it is a word character, a hyphen or a dot. -/
def sanitizeChars (inRun : Bool) : List Char → List Char
  | [] => []
  | c :: rest =>
    if isWsChar c then
      if inRun then sanitizeChars true rest
      else '_' :: sanitizeChars true rest
    else if keptChar c then c :: sanitizeChars false rest
    else sanitizeChars false rest

theorem collapseWs_filter_eq_sanitizeChars (l : List Char) (b : Bool) :
    (collapseWs b l).filter keptChar = sanitizeChars b l := by
  induction l generalizing b with
  | nil => rfl
  | cons c rest ih =>
    by_cases hws : isWsChar c
    · cases b with
      | true => simp [collapseWs, sanitizeChars, hws, ih]
      | false =>
        have hu : keptChar '_' = true := by decide
        simp [collapseWs, sanitizeChars, hws, List.filter, hu, ih]
    · by_cases hk : keptChar c
      · simp [collapseWs, sanitizeChars, hws, hk, List.filter, ih]
      · simp [collapseWs, sanitizeChars, hws, hk, List.filter, ih]

/-- C5 counterexample: the claim's derivation ("stripping non-word
characters") would delete hyphens and dots, but the code's character
class `[^\w\-_.]` keeps them; the code also substitutes the default
title "certificate" for an empty title before sanitizing, which the
claim's derivation does not. -/
theorem certificate_filename_counterexample :
    downloadFilename "My-Cert v1.2" = "My-Cert_v1.2.jpg" ∧
    claimedFilename "My-Cert v1.2" = "MyCert_v12.jpg" ∧
    downloadFilename "My-Cert v1.2" ≠ claimedFilename "My-Cert v1.2" ∧
    downloadFilename "" = "certificate.jpg" ∧
    claimedFilename "" = ".jpg" := by
  refine ⟨rfl, rfl, ?_, rfl, rfl⟩
  decide

/-- C5 (amended): the filename is the title (or the default
"certificate" when the title is empty) with each whitespace run
collapsed to an underscore and every character other than word
characters, hyphens and dots stripped, plus the fixed ".jpg" extension;
in particular "AWS Certified!! 2021" yields "AWS_Certified_2021.jpg". -/
theorem certificate_filename_sanitization (title : String) :
    downloadFilename title =
      String.mk (sanitizeChars false (if title = "" then "certificate" else title).toList)
        ++ ".jpg" ∧
    downloadFilename "AWS Certified!! 2021" = "AWS_Certified_2021.jpg" := by
  refine ⟨?_, rfl⟩
  show String.mk
      ((collapseWs false (if title = "" then "certificate" else title).toList).filter keptChar)
      ++ ".jpg" =
    String.mk (sanitizeChars false (if title = "" then "certificate" else title).toList)
      ++ ".jpg"
  rw [collapseWs_filter_eq_sanitizeChars]

/-! ## Contact form (C6) -/

/-- C6: Submission outcomes: an ok response resets the form and alerts
the success text; a non-ok response with a parsed non-empty `message`
alerts exactly that message (in particular "Invalid email"); a non-ok
response with no extractable message (absent field or unparsable body)
alerts the generic text; a thrown fetch alerts the network-error text;
every failing submission raises exactly one blocking alert and does not
reset the form. -/
theorem contact_form_outcomes :
    (∀ body, handleSubmitResponse (.response true body) =
       ⟨[successAlertText], true, false⟩) ∧
    (handleSubmitResponse (.response false (.ok (some "Invalid email")))).alerts =
      ["Invalid email"] ∧
    (∀ m, m ≠ "" →
       (handleSubmitResponse (.response false (.ok (some m)))).alerts = [m]) ∧
    (handleSubmitResponse (.response false (.ok none))).alerts = [genericErrorText] ∧
    (handleSubmitResponse (.response false (.error ()))).alerts = [genericErrorText] ∧
    (handleSubmitResponse .networkError).alerts = [networkErrorText] ∧
    (∀ body, (handleSubmitResponse (.response false body)).alerts ≠ [] ∧
       (handleSubmitResponse (.response false body)).formReset = false) ∧
    (handleSubmitResponse .networkError).alerts ≠ [] := by
  refine ⟨fun body => rfl, by decide, fun m hm => ?_, rfl, rfl, rfl, fun body => ⟨?_, rfl⟩,
    by decide⟩
  · simp [handleSubmitResponse, hm]
  · cases body with
    | ok o =>
      cases o with
      | some m => by_cases hm : m = "" <;> simp [handleSubmitResponse, hm]
      | none => simp [handleSubmitResponse]
    | error e => simp [handleSubmitResponse]

/-- Witness for C6: the non-empty-message branch at "Invalid email" and
the no-message fallback. -/
theorem contact_form_outcomes_witness :
    (handleSubmitResponse (.response false (.ok (some "Invalid email")))).alerts =
      ["Invalid email"] ∧
    (handleSubmitResponse (.response false (.ok none))).alerts ≠ [] :=
  ⟨contact_form_outcomes.2.2.1 "Invalid email" (by decide),
   (contact_form_outcomes.2.2.2.2.2.2.1 (.ok none)).1⟩

/-! ## Filters (C7) -/

/-- C7 counterexample: an item whose `data-category` attribute is
present but empty. The claim's tag (first *present* attribute) is "",
yet the handler's `||` chain skips the empty string and matches the
filter "p" against `data-project`, showing the item. -/
theorem filter_claim_counterexample :
    (applyFilter "p"
      { category := some "", project := some "p", gallery := none }).visible = true ∧
    firstPresentTag { category := some "", project := some "p", gallery := none } = "" ∧
    ("p" : String) ≠ "all" ∧
    firstPresentTag { category := some "", project := some "p", gallery := none } ≠ "p" := by
  refine ⟨rfl, rfl, by decide, by decide⟩

/-- C7 (amended): clicking a filter button with value "all" shows every
item in the collection; any other value shows exactly those items whose
tag — the first *truthy* (present and non-empty) of the category,
project and gallery data attributes — equals the value, and hides all
others. -/
theorem filter_semantics (filter : String) (items : List FilterItem) :
    (∀ it ∈ filterClick "all" items, it.visible = true ∧ it.fadeIn = true) ∧
    (filter ≠ "all" →
       ∀ it ∈ items,
         ((applyFilter filter it).visible = true ↔ catTag it = filter) ∧
         ((applyFilter filter it).visible = false ↔ catTag it ≠ filter) ∧
         (applyFilter filter it).fadeIn = (applyFilter filter it).visible) := by
  constructor
  · intro it hmem
    rw [filterClick] at hmem
    obtain ⟨it0, _, rfl⟩ := List.mem_map.mp hmem
    simp [applyFilter]
  · intro hf it _
    by_cases hc : catTag it = filter
    · simp [applyFilter, hc]
    · simp [applyFilter, hc, hf]

/-- Witness for C7 at a two-item collection and filter "web": the
matching item is shown, the other hidden. -/
theorem filter_semantics_witness :
    ((applyFilter "web" { category := some "web" }).visible = true ↔
      catTag { category := some "web" } = "web") ∧
    ((applyFilter "web" { category := some "ml" }).visible = true ↔
      catTag { category := some "ml" } = "web") :=
  ⟨((filter_semantics "web" [{ category := some "web" }, { category := some "ml" }]).2
      (by decide) { category := some "web" } (by simp)).1,
   ((filter_semantics "web" [{ category := some "web" }, { category := some "ml" }]).2
      (by decide) { category := some "ml" } (by simp)).1⟩

/-! ## Certificate download guard (C10) -/

/-- C10: the download control is a no-op when no certificate URL is
captured: with an empty URL (the initial state, and any state after
`closeCertificateModal`) no anchor/download effect is produced and the
session state is unchanged. -/
theorem download_noop_without_url (s : CertState) (h : s.url = "") :
    downloadClick s = (s, []) ∧
    downloadClick initialCertState = (initialCertState, []) ∧
    (∀ s2, downloadClick (closeCertificateModal s2) = (closeCertificateModal s2, [])) := by
  refine ⟨?_, rfl, fun s2 => rfl⟩
  unfold downloadClick
  rw [if_neg (by simp [h])]

/-- Witness for C10 at the initial certificate state. -/
theorem download_noop_without_url_witness :
    downloadClick initialCertState = (initialCertState, []) :=
  (download_noop_without_url initialCertState rfl).1

end PortfolioScript
